import Mathlib

/-!
Verification development for the Morrigan connection provider
(`js-morrigan.providers.connection-pkg`).

The server-side provider lives in `src/unnamed/part_001` (the current,
v0.2.0 module); the client-side connector lives in
`src/client/Connection.js`.  The definitions below are a shallow
embedding of those two files: JavaScript objects become Lean structures
with `Option` fields for properties that may be absent, the document
store and the local socket/heartbeat side tables become association
lists inside an explicit state record, and timestamps (Luxon
`DateTime`) are modelled as integers (the numeric time value of the
instant).  JavaScript truthiness is modelled explicitly where the
source branches on it.
-/

/-- A JSON/JavaScript value, as produced by `JSON.parse` and consumed by
`JSON.stringify`.  Fields of an object are an association list in
insertion order.  (JSON arrays play no role in any property below and
are omitted from the model.) -/
inductive JSValue where
  | str (s : String)
  | num (n : Int)
  | bool (b : Bool)
  | null
  | obj (fields : List (String × JSValue))
deriving Repr

/-- JavaScript truthiness of a value. -/
def jsTruthy : JSValue → Bool
  | .str s => s ≠ ""
  | .num n => n ≠ 0
  | .bool b => b
  | .null => false
  | .obj _ => true

/-- Truthiness of a possibly-absent (`undefined`) value. -/
def jsTruthyOpt : Option JSValue → Bool
  | none => false
  | some v => jsTruthy v

/-- Truthiness of a possibly-absent boolean property (such as
`r.isAlive`): `undefined` and `false` are falsy. -/
def jsTruthyOptBool : Option Bool → Bool
  | none => false
  | some b => b

/-- Escape a string for inclusion in a JSON text (quote and backslash;
the concrete strings in this development contain no control
characters). -/
def escapeJSONString (s : String) : String :=
  String.mk (s.toList.flatMap fun c =>
    if c = '\\' ∨ c = '"' then ['\\', c] else [c])

mutual

/-- `JSON.stringify` on the modelled values. -/
def stringify : JSValue → String
  | .str s => "\x22" ++ escapeJSONString s ++ "\x22"
  | .num n => toString n
  | .bool true => "true"
  | .bool false => "false"
  | .null => "null"
  | .obj fs => "\x7b" ++ stringifyFields fs ++ "\x7d"

/-- Serialization of the field list of a JSON object. -/
def stringifyFields : List (String × JSValue) → String
  | [] => ""
  | [(k, v)] => "\x22" ++ escapeJSONString k ++ "\x22:" ++ stringify v
  | (k, v) :: rest =>
      "\x22" ++ escapeJSONString k ++ "\x22:" ++ stringify v ++ "," ++
        stringifyFields rest

end

/-- Reading a property of a JavaScript value (`v.type`).  Reading a
property of `null` throws a `TypeError`; reading an undeclared property
of a primitive or an object yields `undefined` (here: `none`). -/
inductive FieldRead where
  | val (v : Option JSValue)
  | typeErr
deriving Repr

/-- Property access `v[key]` on a parsed JSON value. -/
def readField : JSValue → String → FieldRead
  | .null, _ => .typeErr
  | .obj fs, key => .val ((fs.find? (fun p => p.1 == key)).map (fun p => p.2))
  | _, _ => .val none

/-!
## Data model

`ConnectionRecord` mirrors the documents held in the
`morrigan.connections` collection.  Properties that a record may lack
are `Option`s (absence = JavaScript `undefined`).  Two points of note,
both taken directly from the source:

* the current module writes the liveness flag under the property name
  `alive` (issuance, upgrade, heartbeat, cleanup, and the module's own
  OpenAPI schema all use `alive`), while `send` reads a property named
  `isAlive`; the model therefore carries both properties;
* the pong handler writes the misspelled property `lastHearbeat`,
  while the module's OpenAPI schema documents `lastHeartbeat`; the
  model carries both spellings.
-/

/-- A document of the `morrigan.connections` collection. -/
structure ConnectionRecord where
  id : String
  clientId : String
  clientAddress : String
  /-- `false` at issuance; the connection instant after a successful
  upgrade (instants are modelled as numeric time values). -/
  connected : JSValue
  /-- Legacy property read by `send`; no code path of the current
  module ever writes it. -/
  isAlive : Option Bool
  /-- The liveness flag actually maintained by the current module. -/
  alive : Option Bool
  «open» : Bool
  serverId : Option String
  /-- Expiry instant of the connection token; deleted at upgrade. -/
  timeout : Option Int
  tokenId : Option String
  disconnected : Option Int
  /-- Documented heartbeat property; never written by the module. -/
  lastHeartbeat : Option Int
  /-- Misspelled property actually written by the pong handler. -/
  lastHearbeat : Option Int
  reportUrl : Option String
deriving Repr

/-- A WebSocket handle; `readyState = 1` is the OPEN state. -/
structure Socket where
  readyState : Nat
deriving Repr, DecidableEq

/-- The provider's mutable state: the two persisted collections
(`morrigan.connections` and `morrigan.connections.tokens`, the latter
kept as the list of token-record ids) and the two process-local side
tables (`sockets`, and `heartbeats` mapping a connection id to whether
its interval timer is still running — `clearInterval` stops the timer
but does not remove the map entry). -/
structure ServerState where
  records : List ConnectionRecord
  tokenRecords : List String
  sockets : List (String × Socket)
  heartbeats : List (String × Bool)
deriving Repr

/-- The fields of `coreEnv` the provider reads. -/
structure ServerEnv where
  serverId : String
  endpointUrl : String
deriving Repr, DecidableEq

/-- `connectionRecords.findOne({id: connectionId})`: first document with
the given `id`. -/
def findOneById (rs : List ConnectionRecord) (connectionId : String) :
    Option ConnectionRecord :=
  rs.find? (fun r => r.id == connectionId)

/-- `connectionRecords.findOne({clientId: clientId})`: first document
with the given `clientId`. -/
def findOneByClientId (rs : List ConnectionRecord) (clientId : String) :
    Option ConnectionRecord :=
  rs.find? (fun r => r.clientId == clientId)

/-- `connectionRecords.replaceOne({id: connectionId}, record)`: replace
the first document with the given `id`. -/
def replaceOneById (rs : List ConnectionRecord) (connectionId : String)
    (record : ConnectionRecord) : List ConnectionRecord :=
  match rs with
  | [] => []
  | r :: rest =>
      if r.id == connectionId then record :: rest
      else r :: replaceOneById rest connectionId record

/-- `connectionRecords.deleteOne({id: connectionId})`: delete the first
document with the given `id`. -/
def deleteOneById (rs : List ConnectionRecord) (connectionId : String) :
    List ConnectionRecord :=
  match rs with
  | [] => []
  | r :: rest =>
      if r.id == connectionId then rest
      else r :: deleteOneById rest connectionId

/-- `connectionTokenRecords.deleteOne({id: tokenId})` where `tokenId`
may be `undefined` (in which case nothing matches). -/
def deleteOneTokenRecord (ts : List String) (tokenId : Option String) :
    List String :=
  match ts with
  | [] => []
  | t :: rest =>
      if some t == tokenId then rest
      else t :: deleteOneTokenRecord rest tokenId

/-- Lookup in a local side table (`sockets[connectionId]`,
`heartbeats[connectionId]`). -/
def tableLookup {α : Type} (tbl : List (String × α)) (key : String) :
    Option α :=
  (tbl.find? (fun p => p.1 == key)).map (fun p => p.2)

/-- `delete tbl[key]` on a local side table. -/
def tableDelete {α : Type} (tbl : List (String × α)) (key : String) :
    List (String × α) :=
  match tbl with
  | [] => []
  | p :: rest =>
      if p.1 == key then tableDelete rest key
      else p :: tableDelete rest key

/-- `clearInterval(tbl[key])`: the timer entry (if any) stops running;
the entry itself stays in the table. -/
def tableStopTimer (tbl : List (String × Bool)) (key : String) :
    List (String × Bool) :=
  match tbl with
  | [] => []
  | p :: rest =>
      if p.1 == key then (p.1, false) :: tableStopTimer rest key
      else p :: tableStopTimer rest key

/-- `tbl[key] = v` on a local side table. -/
def tableInsert {α : Type} (tbl : List (String × α)) (key : String)
    (v : α) : List (String × α) :=
  match tbl with
  | [] => [(key, v)]
  | p :: rest =>
      if p.1 == key then (key, v) :: rest else p :: tableInsert rest key v

/-!
## Sender (`send`, part_001 lines 41-68)
-/

/-- Result of `send`: either the returned status object (together with
the frame handed to the socket, when one was), or a thrown error
(`s.send` on an `undefined` socket handle). -/
inductive SendOutcome where
  | result (status : String) (reason : Option String) (frame : Option String)
  | thrown
deriving Repr, DecidableEq

/-- Serialization step of `send` (lines 56-61).  The `switch` on
`typeof message` has no `break` after the `'string'` case, so control
falls through into the `default` clause and the `JSON.stringify`
assignment always wins. -/
def serializeMessage (message : JSValue) : String :=
  let msg : Option String := none
  let msg : Option String :=
    match message with
    | .str s => some s
    | _ => msg
  let msg : Option String := some (stringify message)
  msg.getD ""

/-- `send(connectionId, message)` (lines 41-68). -/
def send (env : ServerEnv) (st : ServerState) (connectionId : String)
    (message : JSValue) : SendOutcome :=
  match findOneById st.records connectionId with
  | none => .result "failed" (some "No such connection.") none
  | some r =>
      if !jsTruthyOptBool r.isAlive || !r.«open» then
        .result "failed" (some "Connection closed or client not live.") none
      else if r.serverId != some env.serverId then
        .result "failed"
          (some ("Connection \x27" ++ connectionId ++
            "\x27 does not belong to this server (\x27" ++ env.serverId ++
            "\x27)."))
          none
      else
        let msg := serializeMessage message
        match tableLookup st.sockets connectionId with
        | none => .thrown
        | some _ => .result "success" none (some msg)

/-!
## Cleanup (`cleanup`, part_001 lines 75-104)
-/

/-- `cleanup(connectionId)`.  `now` is the value of `DateTime.now()` at
the call.  Note, from the source: the socket entry is deleted
unconditionally; the heartbeat timer is stopped (`clearInterval`) only
when a record was found, and its table entry is never deleted; the
record, when found, is persisted with `alive = false`, `open = false`,
and (when this call closed an OPEN socket) `disconnected = now`. -/
def cleanup (st : ServerState) (connectionId : String) (now : Int) :
    ServerState :=
  let ws := tableLookup st.sockets connectionId
  let sockets1 := tableDelete st.sockets connectionId
  let closed :=
    match ws with
    | some w => w.readyState == 1
    | none => false
  match findOneById st.records connectionId with
  | none => { st with sockets := sockets1 }
  | some record =>
      let record1 :=
        { record with
            alive := some false
            «open» := false
            disconnected := if closed then some now else record.disconnected }
      let heartbeats1 :=
        match tableLookup st.heartbeats connectionId with
        | some _ =>
            -- clearInterval(heartBeatCheck): the timer stops running,
            -- but no `delete heartbeats[connectionId]` is performed.
            tableStopTimer st.heartbeats connectionId
        | none => st.heartbeats
      { st with
          sockets := sockets1
          heartbeats := heartbeats1
          records := replaceOneById st.records connectionId record1 }

/-!
## Admission controller — token issuance (`ep_wsConnectAuth`,
part_001 lines 117-189)

The embedding below covers the part of the handler that runs after the
identity token has been verified (lines 141-189): the duplicate-session
check, the deletion of a stale record, and the issuance of the new
record and token.  The earlier lines (missing-header 400 and identity
403) only short-circuit with the verifier's response and touch no
state.  The fresh UUID and the token minted by the external
`JWTGenerator` are passed in as explicit data.
-/

/-- An HTTP response: the numeric status and the serialized body. -/
structure HttpResponse where
  status : Nat
  body : String
deriving Repr, DecidableEq

/-- The fresh identifiers and token produced during issuance: the new
connection id (`uuidv4()`), and the id, expiry and serialized form of
the token minted by `tokens.newToken`. -/
structure FreshIssue where
  newConnectionId : String
  newTokenId : String
  tokenExpires : Int
  token : String
deriving Repr, DecidableEq

/-- The guard `c.open && DateTime.fromISO(c.timeout).diffNow().milliseconds >= 0`
(line 145).  When the `timeout` property is absent — which is the case
for every record promoted by the WebSocket upgrade, since the upgrade
deletes `timeout` — `DateTime.fromISO(undefined)` is an invalid
`DateTime`, its `diffNow().milliseconds` is `NaN`, and `NaN >= 0` is
`false`. -/
def activeIssuanceGuard (c : ConnectionRecord) (now : Int) : Bool :=
  c.«open» &&
    (match c.timeout with
     | some t => decide (t - now ≥ 0)
     | none => false)

/-- Lines 141-189 of `ep_wsConnectAuth`: everything after the client
identity has been resolved to `clientId`.  Returns the HTTP response
and the updated provider state. -/
def ep_wsConnectAuth_postAuth (env : ServerEnv) (st : ServerState)
    (clientId remoteAddress : String) (now : Int) (fresh : FreshIssue) :
    HttpResponse × ServerState :=
  let issue : ServerState → HttpResponse × ServerState := fun st1 =>
    let reportUrl := env.endpointUrl ++ "/connection/connect"
    let record : ConnectionRecord :=
      { id := fresh.newConnectionId
        clientId := clientId
        clientAddress := remoteAddress
        connected := .bool false
        isAlive := none
        alive := some false
        «open» := true
        serverId := none
        timeout := some fresh.tokenExpires
        tokenId := some fresh.newTokenId
        disconnected := none
        lastHeartbeat := none
        lastHearbeat := none
        reportUrl := some reportUrl }
    ({ status := 200
       body := stringify (.obj
         [("state", .str "success"), ("token", .str fresh.token)]) },
     { st1 with records := st1.records ++ [record] })
  match findOneByClientId st.records clientId with
  | some c =>
      if activeIssuanceGuard c now then
        ({ status := 400
           body := stringify (.obj
             [("state", .str "requestError"),
              ("reason", .str ("client \x27" ++ clientId ++
                "\x27 already has an open connection (\x27" ++ c.id ++
                "\x27)"))]) },
         st)
      else
        issue
          { st with
              records := deleteOneById st.records c.id
              tokenRecords := deleteOneTokenRecord st.tokenRecords c.tokenId }
  | none => issue st

/-!
## Admission controller — WebSocket upgrade (`ep_wsConnect`,
part_001 lines 208-334)

The entry of the handler: verify the connection token carried in the
`Origin` header, load the record named by its subject, promote it and
register the socket (lines 208-232).  When verification fails the
socket is closed and nothing is mutated.  When verification succeeds
but no record with the subject id exists, `connectionRecords.findOne`
yields `null` and the very next statement, `record.alive = true`,
throws a `TypeError` which escapes the handler — the socket is *not*
closed and no state is mutated.  The subsequent steps of the handler
(event loops, heartbeat timer, handler wiring, promotion frame) are
modelled separately below.
-/

/-- Result of `tokens.verifyToken(origin)`. -/
structure VerifyResult where
  success : Bool
  subject : String
deriving Repr, DecidableEq

/-- How the entry of `ep_wsConnect` ends. -/
inductive UpgradeOutcome where
  /-- token verification failed; `ws.close()` was called. -/
  | closedAuthFail
  /-- token verified but no record has the subject id:
  `record.alive = true` on `null` throws a TypeError that escapes. -/
  | nullRecordTypeError
  /-- the record was promoted and persisted and the socket registered. -/
  | established (record : ConnectionRecord)
deriving Repr

/-- Lines 208-232 of `ep_wsConnect`: token check, record promotion,
socket registration.  Returns the outcome, the updated state, and
whether `ws.close()` was called. -/
def ep_wsConnect_entry (env : ServerEnv) (st : ServerState)
    (verified : VerifyResult) (ws : Socket) (remoteAddress : String)
    (now : Int) : UpgradeOutcome × ServerState × Bool :=
  if !verified.success then
    (.closedAuthFail, st, true)
  else
    match findOneById st.records verified.subject with
    | none => (.nullRecordTypeError, st, false)
    | some record =>
        let record1 :=
          { record with
              alive := some true
              timeout := none
              clientAddress := remoteAddress
              connected := .num now
              serverId := some env.serverId }
        (.established record1,
         { st with
             sockets := tableInsert st.sockets record1.id ws
             records := replaceOneById st.records record1.id record1 },
         false)

/-- The `pong` listener (lines 255-259): it writes the *misspelled*
property `lastHearbeat`, sets `alive` to `true`, and persists the
record. -/
def pongHandler (record : ConnectionRecord) (now : Int) :
    ConnectionRecord :=
  { record with lastHearbeat := some now, alive := some true }

/-- The `pong` listener including its `replaceOne` persistence step. -/
def onPong (st : ServerState) (record : ConnectionRecord) (now : Int) :
    ConnectionRecord × ServerState :=
  let record1 := pongHandler record now
  (record1,
   { st with records := replaceOneById st.records record1.id record1 })

/-!
## Event bus (part_001 lines 16-34, 237-239, 311-316, 587-594)

A registered handler is modelled by its registration index together
with a flag saying whether it throws when invoked.  The three `for (let
i in callbacks.X)` loops of the source body contain no `try`/`catch`:
a throwing handler aborts the loop and the exception propagates to the
enclosing function.
-/

/-- One subscriber: `(registration id, throws when invoked)`. -/
abbrev Subscriber := Nat × Bool

/-- A `for (let i in callbacks.X]) { callbacks.X[i](record, ws) }` loop.
Returns the ids of the subscribers that were actually invoked, in
order, and whether an exception escaped the loop. -/
def runCallbackLoop : List Subscriber → List Nat × Bool
  | [] => ([], false)
  | (h, throws) :: rest =>
      if throws then ([h], true)
      else
        let (invoked, exn) := runCallbackLoop rest
        (h :: invoked, exn)

/-- The socket `close` listener (lines 302-316), from the
`callbacks.disconnect` loop onward: run the disconnect subscribers,
then call `cleanup(record.id)`.  (The preceding advisory update of the
client descriptor's `state` concerns the client provider and is not
modelled.)  The loop has no `try`/`catch`, so a throwing subscriber
aborts the loop *and* prevents the `cleanup` call. -/
def wsCloseHandler (disconnectSubs : List Subscriber) (st : ServerState)
    (connectionId : String) (now : Int) : (List Nat × Bool) × ServerState :=
  let (invoked, exn) := runCallbackLoop disconnectSubs
  if exn then ((invoked, true), st)
  else ((invoked, false), cleanup st connectionId now)

/-!
## Dispatcher (the `message` listener, part_001 lines 261-300)

The listener's `try` blocks wrap only `JSON.parse(message)` and the
final handler invocation `h(msg, ws, record, coreEnv)`.  Everything in
between runs unprotected, so a `TypeError` raised there (reading
`msg.type` on a `null` frame, calling `.match` on a truthy non-string
`type`, or indexing `p.messages` on a provider without a `messages`
table) escapes the listener.

The type discriminator is matched against the source's literal regular
expression `^(?<provider>[A-z0-9\-_]+)\.(?<message>[A-z0-9\-_.]+)$`.
The character range `A-z` spans ASCII 65-122 and therefore also admits
the six characters between `Z` and `a` (`[`, `\`, `]`, `^`, `_`, and
the backquote).  The provider class excludes the dot, so the greedy
match splits the string at its first dot.
-/

/-- Membership in the source's class `[A-z0-9\-_]` (provider part). -/
def inProviderClass (c : Char) : Bool :=
  ('A' ≤ c && c ≤ 'z') || ('0' ≤ c && c ≤ '9') || c == '-' || c == '_'

/-- Membership in the source's class `[A-z0-9\-_.]` (message part). -/
def inMessageClass (c : Char) : Bool :=
  inProviderClass c || c == '.'

/-- `s.match(/^(?<provider>[A-z0-9\-_]+)\.(?<message>[A-z0-9\-_.]+)$/)`,
returning the two named groups on success.  The string matches exactly
when the text before its first dot is a nonempty run of provider-class
characters and the text after that dot is a nonempty run of
message-class characters. -/
def jsTypeMatch (s : String) : Option (String × String) :=
  let cs := s.toList
  let pv := cs.takeWhile (fun c => c ≠ '.')
  match cs.dropWhile (fun c => c ≠ '.') with
  | '.' :: ms =>
      if !pv.isEmpty && pv.all inProviderClass &&
          !ms.isEmpty && ms.all inMessageClass then
        some (String.mk pv, String.mk ms)
      else none
  | _ => none

/-- A provider object as seen by the dispatcher: its `messages` table
(message name ↦ whether the handler throws when invoked), or `none`
when the provider has no `messages` property. -/
structure Provider where
  messages : Option (List (String × Bool))
deriving Repr, DecidableEq

/-- `coreEnv.providers`: provider name ↦ provider object. -/
abbrev Providers := List (String × Provider)

/-- How the `message` listener ends for one inbound frame. -/
inductive DispatchOutcome where
  /-- `JSON.parse` threw: logged and dropped. -/
  | droppedInvalidJSON
  /-- `!msg.type`: logged and dropped. -/
  | droppedNoType
  /-- the type string does not match the regex: logged and dropped. -/
  | droppedBadType
  /-- no provider object under the provider name: logged and dropped. -/
  | droppedNoProvider
  /-- the provider's `messages` table has no such handler: logged and
  dropped. -/
  | droppedNoHandler
  /-- an uncaught `TypeError` escaped the listener. -/
  | typeError
  /-- exactly one handler was invoked, as
  `h(argMsg, argSocket, argRecord, argEnv)`; `handlerThrew` records
  whether it threw (in which case the exception is caught and
  logged). -/
  | handled (providerTag messageTag : String) (handlerThrew : Bool)
      (argMsg : JSValue) (argSocket argRecord argEnv : Nat)
deriving Repr

/-- The `message` listener (lines 261-300).  `parsed` is the result of
`JSON.parse(message)` (`none` when the parse threw); `socketRef`,
`recordRef` and `envRef` stand for the `ws`, `record` and `coreEnv`
references the listener closes over. -/
def dispatchMessage (providers : Providers)
    (socketRef recordRef envRef : Nat) (parsed : Option JSValue) :
    DispatchOutcome :=
  match parsed with
  | none => .droppedInvalidJSON
  | some msg =>
      match readField msg "type" with
      | .typeErr => .typeError
      | .val t =>
          if !jsTruthyOpt t then .droppedNoType
          else
            match t with
            | some (.str s) =>
                match jsTypeMatch s with
                | none => .droppedBadType
                | some (pv, ms) =>
                    match tableLookup providers pv with
                    | none => .droppedNoProvider
                    | some p =>
                        match p.messages with
                        | none =>
                            -- `p.messages[m.groups.message]` on an
                            -- undefined `messages` property throws.
                            .typeError
                        | some tbl =>
                            match tableLookup tbl ms with
                            | none => .droppedNoHandler
                            | some throws =>
                                .handled pv ms throws msg
                                  socketRef recordRef envRef
            | _ =>
                -- `msg.type.match(...)` on a truthy non-string throws.
                .typeError

/-!
## HTTP send route (`ep_send`, part_001 lines 362-399)
-/

/-- Truthiness of the `connectionId` path parameter (`undefined` and
the empty string are falsy). -/
def jsTruthyOptStr : Option String → Bool
  | none => false
  | some s => s ≠ ""

/-- How `ep_send` ends: a response, or an uncaught `TypeError` (reading
`.type` of a `null` body). -/
inductive EpSendOutcome where
  | resp (r : HttpResponse)
  | thrown
deriving Repr, DecidableEq

/-- `ep_send(req, res)`.  `functions` is
`req.authenticated.functions`, `connectionIdParam` is
`req.params.connectionId` and `body` is `req.body`.  The capability
check comes first; then the three parameter checks; finally the
handler calls the `async` function `send` *without awaiting it*, so
`r` is a pending promise: `r.status === 'success'` is `false` and
`JSON.stringify(r)` is `"{}"`, hence the final branch always answers
400 with body `{}`. -/
def ep_send (functions : List String) (connectionIdParam : Option String)
    (body : Option JSValue) : EpSendOutcome :=
  if !functions.contains "connection.send" then
    .resp { status := 403
            body := stringify (.obj
              [("status", .str "failed"),
               ("reason", .str "Send not permitted.")]) }
  else if !jsTruthyOptStr connectionIdParam then
    .resp { status := 400
            body := stringify (.obj
              [("status", .str "failed"),
               ("reason", .str "No connectionId specified.")]) }
  else if !jsTruthyOpt body then
    .resp { status := 400
            body := stringify (.obj
              [("status", .str "failed"),
               ("reason", .str "No message specified.")]) }
  else
    match body with
    | some msg =>
        match readField msg "type" with
        | .typeErr => .thrown
        | .val t =>
            if !jsTruthyOpt t then
              .resp { status := 400
                      body := stringify (.obj
                        [("status", .str "failed"),
                         ("reason", .str "No message type specified.")]) }
            else
              -- let r = send(cid, msg): not awaited; r is a promise.
              .resp { status := 400, body := "\x7b\x7d" }
    | none => .resp { status := 400, body := "\x7b\x7d" }

/-!
## Client connector (`src/client/Connection.js`)

Only the `disconnect` method (lines 246-275) is needed by the
properties below.  Its subscriber loop — unlike the server-side loops —
wraps every invocation in `try`/`catch`, so all registered `disconnect`
handlers run even when one throws.
-/

/-- The client-side WebSocket handle (`_state.ws`). -/
structure ClientWS where
  readyState : Nat
deriving Repr, DecidableEq

/-- The client connector's state: the socket (absent until `connect()`
creates one), the `alwaysReconnect` flag, and the registered
`disconnect` subscribers. -/
structure ClientState where
  ws : Option ClientWS
  alwaysReconnect : Bool
  disconnectHandlers : List Subscriber
deriving Repr, DecidableEq

/-- What one `disconnect(e)` call did: the resulting connector state,
the frames written to the socket, whether `close()` was called, and the
ids of the `disconnect` subscribers that were invoked, in order. -/
structure DisconnectResult where
  state : ClientState
  framesSent : List String
  socketClosed : Bool
  invoked : List Nat
deriving Repr, DecidableEq

/-- `this.disconnect = (e) => {...}` (Connection.js lines 246-275).
When no socket exists the method returns at once — in particular
*without* touching `alwaysReconnect`.  Otherwise it clears
`alwaysReconnect`, and when the socket is OPEN it sends the final
`client.state` frame, closes the socket, and synchronously runs every
`disconnect` subscriber (each inside `try`/`catch`). -/
def clientDisconnect (st : ClientState) (e : String) : DisconnectResult :=
  match st.ws with
  | none => { state := st, framesSent := [], socketClosed := false, invoked := [] }
  | some connection =>
      let st1 := { st with alwaysReconnect := false }
      if connection.readyState == 1 then
        { state := st1
          framesSent := [stringify (.obj
            [("type", .str "client.state"),
             ("state", .str ("stopped." ++ e))])]
          socketClosed := true
          invoked := st.disconnectHandlers.map (fun h => h.1) }
      else
        { state := st1, framesSent := [], socketClosed := false, invoked := [] }

/-!
## Concrete fixtures

Concrete states used to evaluate the embedded operations.  `recLive`
is the record of an established, live connection exactly as the current
module produces it: issuance writes `alive`, the upgrade sets
`alive = true`, `serverId`, an instant in `connected` and deletes
`timeout`; no code path of the module ever writes `isAlive`.
-/

/-- The environment of server `srvA`. -/
def envA : ServerEnv :=
  { serverId := "srvA", endpointUrl := "https://morrigan.example/api" }

/-- The record of an established, live connection owned by `srvA`, as
the module itself produces it. -/
def recLive : ConnectionRecord :=
  { id := "c1"
    clientId := "cliX"
    clientAddress := "198.51.100.7"
    connected := .num 1000
    isAlive := none
    alive := some true
    «open» := true
    serverId := some "srvA"
    timeout := none
    tokenId := some "T1"
    disconnected := none
    lastHeartbeat := none
    lastHearbeat := none
    reportUrl := some "https://morrigan.example/api/connection/connect" }

/-- Server state holding the established connection `c1`: its record,
its token record, its live socket and its running heartbeat timer. -/
def stLive : ServerState :=
  { records := [recLive]
    tokenRecords := ["T1"]
    sockets := [("c1", { readyState := 1 })]
    heartbeats := [("c1", true)] }

/-- A record identical to `recLive` but carrying a truthy legacy
`isAlive` property, so that the guard inside `send` can be passed at
all (no record produced by the module satisfies it). -/
def recLegacyAlive : ConnectionRecord :=
  { recLive with isAlive := some true }

/-- `stLive` with `recLegacyAlive` in place of `recLive`. -/
def stLegacyAlive : ServerState :=
  { stLive with records := [recLegacyAlive] }

/-- Fresh identifiers for a second issuance. -/
def freshR2 : FreshIssue :=
  { newConnectionId := "R2"
    newTokenId := "T2"
    tokenExpires := 1060
    token := "jwt-R2" }

/-- Does the dispatch outcome represent a handler invocation? -/
def DispatchOutcome.isHandled : DispatchOutcome → Bool
  | .handled _ _ _ _ _ _ _ => true
  | _ => false

/-- Does the dispatch outcome represent a logged-and-dropped frame? -/
def DispatchOutcome.isDropped : DispatchOutcome → Bool
  | .droppedInvalidJSON => true
  | .droppedNoType => true
  | .droppedBadType => true
  | .droppedNoProvider => true
  | .droppedNoHandler => true
  | _ => false

/-- Does the dispatch outcome represent an uncaught error escaping the
listener? -/
def DispatchOutcome.isUncaughtError : DispatchOutcome → Bool
  | .typeError => true
  | _ => false

/-- The dispatch condition of the amended claim C3: the frame parses as
JSON, its `type` property reads without fault and is truthy, is a
string matching the source's regex
`^([A-z0-9\-_]+)\.([A-z0-9\-_.]+)$`, the provider object exists, and
its `messages` table holds a handler for the message name. -/
def amendedDispatchOK (providers : Providers) (parsed : Option JSValue) :
    Bool :=
  match parsed with
  | none => false
  | some msg =>
      match readField msg "type" with
      | .typeErr => false
      | .val t =>
          jsTruthyOpt t &&
          match t with
          | some (.str s) =>
              (match jsTypeMatch s with
               | some (pv, ms) =>
                   (match tableLookup providers pv with
                    | some p =>
                        (match p.messages with
                         | some tbl => (tableLookup tbl ms).isSome
                         | none => false)
                    | none => false)
               | none => false)
          | _ => false

/-- The fault condition of the amended claim C3: the frame is the JSON
literal `null` (reading `.type` throws), or its `type` is truthy but
not a string (`.match` throws), or the resolved provider has no
`messages` table (indexing `undefined` throws). -/
def amendedDispatchFault (providers : Providers)
    (parsed : Option JSValue) : Bool :=
  match parsed with
  | none => false
  | some msg =>
      match readField msg "type" with
      | .typeErr => true
      | .val t =>
          jsTruthyOpt t &&
          match t with
          | some (.str s) =>
              (match jsTypeMatch s with
               | some (pv, _) =>
                   (match tableLookup providers pv with
                    | some p => p.messages.isNone
                    | none => false)
               | none => false)
          | _ => true

/-- A provider table with a single `client` provider handling
`state`. -/
def providersP0 : Providers :=
  [("client", { messages := some [("state", false)] })]

/-- A well-formed `client.state` frame. -/
def msgValid : JSValue := .obj [("type", .str "client.state")]

/-- The record `recLive` as persisted by `cleanup` at instant 9 (the
socket was OPEN, so `disconnected` is set). -/
def recCleaned : ConnectionRecord :=
  { recLive with
      alive := some false
      «open» := false
      disconnected := some 9 }

/-- The empty provider state. -/
def stEmpty : ServerState :=
  { records := [], tokenRecords := [], sockets := [], heartbeats := [] }

/-- A client connector that has never opened a socket but was
configured with `alwaysReconnect`. -/
def stNoWs : ClientState :=
  { ws := none, alwaysReconnect := true, disconnectHandlers := [(0, false)] }

/-- A client connector with an OPEN socket and two subscribers, the
second of which throws. -/
def stWithWs : ClientState :=
  { ws := some { readyState := 1 }
    alwaysReconnect := true
    disconnectHandlers := [(0, false), (1, true)] }

/-!
## Theorems
-/

/-- Deleting a key from a side table makes lookups of that key fail. -/
theorem tableLookup_tableDelete {α : Type} (tbl : List (String × α))
    (key : String) : tableLookup (tableDelete tbl key) key = none := by
  induction tbl with
  | nil => rfl
  | cons p rest ih =>
      cases hk : p.1 == key with
      | true => simpa [tableDelete, hk] using ih
      | false => simpa [tableDelete, tableLookup, List.find?_cons, hk] using ih

/-- After `replaceOne({id: connectionId}, record)` on a store where
`findOne({id: connectionId})` succeeded, `findOne` returns the
replacement (assuming the replacement keeps the matched id). -/
theorem findOneById_replaceOneById (rs : List ConnectionRecord)
    (connectionId : String) (record r : ConnectionRecord)
    (hid : (record.id == connectionId) = true)
    (h : findOneById rs connectionId = some r) :
    findOneById (replaceOneById rs connectionId record) connectionId =
      some record := by
  induction rs with
  | nil => simp [findOneById] at h
  | cons x rest ih =>
      cases hx : x.id == connectionId with
      | true => simp [replaceOneById, findOneById, List.find?_cons, hx, hid]
      | false =>
          simp only [findOneById, List.find?_cons, hx] at h
          simp only [replaceOneById, hx, Bool.false_eq_true, if_false,
            findOneById, List.find?_cons]
          exact ih h

/-- Stopping the heartbeat timer of one key rewrites that key's value
to `false` (the first entry found), leaving lookups otherwise intact. -/
theorem tableLookup_tableStopTimer (tbl : List (String × Bool))
    (key : String) :
    tableLookup (tableStopTimer tbl key) key =
      (tableLookup tbl key).map (fun _ => false) := by
  induction tbl with
  | nil => rfl
  | cons p rest ih =>
      cases hk : p.1 == key with
      | true => simp [tableStopTimer, tableLookup, List.find?_cons, hk]
      | false =>
          simpa [tableStopTimer, tableLookup, List.find?_cons, hk] using ih

/-- Stopping the heartbeat timer of one key preserves the key list:
no entry is removed. -/
theorem keys_tableStopTimer (tbl : List (String × Bool)) (key : String) :
    (tableStopTimer tbl key).map (fun p => p.1) =
      tbl.map (fun p => p.1) := by
  induction tbl with
  | nil => rfl
  | cons p rest ih =>
      cases hk : p.1 == key with
      | true => simpa [tableStopTimer, hk] using ih
      | false => simpa [tableStopTimer, hk] using ih

/-- A `for`-loop over subscribers none of which throws invokes all of
them, in registration order, and no exception escapes. -/
theorem runCallbackLoop_no_throw (subs : List Subscriber)
    (h : subs.all (fun s => !s.2) = true) :
    runCallbackLoop subs = (subs.map (fun s => s.1), false) := by
  induction subs with
  | nil => rfl
  | cons x rest ih =>
      simp only [List.all_cons, Bool.and_eq_true, Bool.not_eq_eq_eq_not,
        Bool.not_true] at h
      simp [runCallbackLoop, h.1, ih h.2]

/-- A `for`-loop over subscribers whose first throwing subscriber is
`(n, true)` invokes the preceding subscribers and the thrower, then
aborts with the exception escaping. -/
theorem runCallbackLoop_throw (pre : List Subscriber) (n : Nat)
    (post : List Subscriber) (hpre : pre.all (fun s => !s.2) = true) :
    runCallbackLoop (pre ++ (n, true) :: post) =
      (pre.map (fun s => s.1) ++ [n], true) := by
  induction pre with
  | nil => rfl
  | cons x rest ih =>
      simp only [List.all_cons, Bool.and_eq_true, Bool.not_eq_eq_eq_not,
        Bool.not_true] at hpre
      simp [runCallbackLoop, hpre.1, ih hpre.2]

/-- Claim C1 (code bug).  A record that exists, is alive (`alive =
true`), is open, is owned by the calling server, and whose live socket
is locally stored, should make `send` hand the frame to the socket and
return success — but `send` reads the property `isAlive`, which no
record written by this module carries (every writer and the module's
own OpenAPI schema use `alive`), so the liveness guard always fails
and `send` answers `failed` with reason "Connection closed or client
not live.". -/
theorem send_fails_on_live_owned_connection :
    (findOneById stLive.records "c1" = some recLive ∧
      recLive.alive = some true ∧
      recLive.«open» = true ∧
      recLive.serverId = some envA.serverId ∧
      tableLookup stLive.sockets "c1" = some { readyState := 1 }) ∧
    send envA stLive "c1" (.obj [("type", .str "test.msg")]) =
      .result "failed" (some "Connection closed or client not live.") none := by
  exact ⟨⟨rfl, rfl, rfl, rfl, rfl⟩, rfl⟩

/-- Claim C2 (code bug).  `recLive` is a currently connected session of
client `cliX` (`open = true`, `connected` is an instant, not `false`),
yet a second token-issuance request for `cliX` is *not* rejected: the
guard tests `timeout`, a property the upgrade deleted, so
`DateTime.fromISO(undefined).diffNow().milliseconds >= 0` is a `NaN`
comparison yielding `false`, the handler falls into the
stale-connection branch, deletes the active record and its token
record, and answers 200 with a fresh token. -/
theorem duplicate_active_client_not_rejected :
    (findOneByClientId stLive.records "cliX" = some recLive ∧
      recLive.«open» = true ∧
      recLive.connected = .num 1000 ∧
      jsTruthy recLive.connected = true) ∧
    (ep_wsConnectAuth_postAuth envA stLive "cliX" "198.51.100.7" 1000
      freshR2).1.status = 200 ∧
    findOneById
      (ep_wsConnectAuth_postAuth envA stLive "cliX" "198.51.100.7" 1000
        freshR2).2.records "c1" = none ∧
    (ep_wsConnectAuth_postAuth envA stLive "cliX" "198.51.100.7" 1000
      freshR2).2.tokenRecords = [] := by
  exact ⟨⟨rfl, rfl, rfl, rfl⟩, rfl, rfl, rfl⟩

/-- Claim C7 (code bug).  On pong the handler sets `alive = true` and
persists the record, but it writes the *misspelled* property
`lastHearbeat`; the documented `lastHeartbeat` property (the one in the
module's own OpenAPI schema) is never set, in the in-memory record or
in the persisted copy. -/
theorem pong_writes_misspelled_heartbeat_field :
    (pongHandler recLive 35).alive = some true ∧
    (pongHandler recLive 35).lastHearbeat = some 35 ∧
    (pongHandler recLive 35).lastHeartbeat = none ∧
    (findOneById (onPong stLive recLive 35).2.records "c1").map
      (fun r => r.lastHeartbeat) = some none := by
  exact ⟨rfl, rfl, rfl, rfl⟩

/-- Claim C8 (code bug).  For a `send` that passes the record checks
(possible only with a crafted record carrying the legacy `isAlive`
property), a string message is *not* sent as-is: the `switch` on
`typeof message` lacks a `break`, control falls through into the
`default` clause, and the string is JSON-encoded before being handed
to the socket. -/
theorem send_json_encodes_string_messages :
    send envA stLegacyAlive "c1" (.str "hi") =
      .result "success" none (some "\x22hi\x22") ∧
    serializeMessage (.str "hi") ≠ "hi" := by
  exact ⟨rfl, by decide⟩

/-- Claim C10 (confirmed).  In the `POST /:connectionId/send` route the
`connection.send` capability check is performed before any parameter
validation: whatever the `connectionId` path parameter and the request
body are, a caller whose capability set lacks `connection.send` gets
HTTP 403 with body `{status:'failed', reason:'Send not permitted.'}`. -/
theorem ep_send_capability_checked_first (functions : List String)
    (connectionIdParam : Option String) (body : Option JSValue)
    (h : functions.contains "connection.send" = false) :
    ep_send functions connectionIdParam body =
      .resp { status := 403
              body := stringify (.obj
                [("status", .str "failed"),
                 ("reason", .str "Send not permitted.")]) } := by
  unfold ep_send
  rw [h]
  rfl

/-- Witness for C10: a caller with capabilities `api, connection` only,
no `connectionId` parameter and no body still gets the 403. -/
theorem ep_send_capability_checked_first_witness :
    ep_send ["api", "connection"] none none =
      .resp { status := 403
              body := stringify (.obj
                [("status", .str "failed"),
                 ("reason", .str "Send not permitted.")]) } :=
  ep_send_capability_checked_first ["api", "connection"] none none (by decide)

/-- Counterexample for claim C4: with two `disconnect` subscribers of
which the first throws, the second is never invoked, the exception
escapes the loop, and the `cleanup` call that follows the loop in the
socket `close` listener is skipped (the state — socket, heartbeat,
record — is left untouched). -/
theorem callback_throw_skips_successors :
    runCallbackLoop [(0, true), (1, false)] = ([0], true) ∧
    wsCloseHandler [(0, true), (1, false)] stLive "c1" 9 =
      (([0], true), stLive) := by
  exact ⟨rfl, rfl⟩

/-- Claim C4 as amended: subscribers on a channel run in registration
order, but the server-side loops contain no `try`/`catch`; when no
subscriber throws, all are invoked in order and the lifecycle
continues, and when one throws, the loop stops with it, the exception
propagates, and the remaining lifecycle steps (in the `close` listener,
the `cleanup` call) are skipped. -/
theorem event_bus_invocation (pre : List Subscriber) (n : Nat)
    (post : List Subscriber) (st : ServerState) (connectionId : String)
    (now : Int) (hpre : pre.all (fun s => !s.2) = true) :
    (∀ subs : List Subscriber, subs.all (fun s => !s.2) = true →
        runCallbackLoop subs = (subs.map (fun s => s.1), false)) ∧
    runCallbackLoop (pre ++ (n, true) :: post) =
      (pre.map (fun s => s.1) ++ [n], true) ∧
    wsCloseHandler (pre ++ (n, true) :: post) st connectionId now =
      ((pre.map (fun s => s.1) ++ [n], true), st) := by
  refine ⟨fun subs h => runCallbackLoop_no_throw subs h,
    runCallbackLoop_throw pre n post hpre, ?_⟩
  unfold wsCloseHandler
  rw [runCallbackLoop_throw pre n post hpre]
  rfl

/-- Witness for C4: subscriber 1 of `[0 (ok), 1 (throws), 2 (ok)]`
aborts the loop after `[0, 1]`; a throw-free list `[3, 4]` runs in
full registration order. -/
theorem event_bus_invocation_witness :
    runCallbackLoop [(0, false), (1, true), (2, false)] = ([0, 1], true) ∧
    runCallbackLoop [(3, false), (4, false)] = ([3, 4], false) := by
  have h := event_bus_invocation [(0, false)] 1 [(2, false)] stLive "c1" 9
    (by decide)
  exact ⟨h.2.1, h.1 [(3, false), (4, false)] (by decide)⟩

/-- Counterexample for claim C5: cleaning up the established connection
`c1` does *not* remove its heartbeat entry from the local table — the
timer handle is cleared but the entry stays. -/
theorem cleanup_retains_heartbeat_entry :
    (cleanup stLive "c1" 9).heartbeats = [("c1", false)] ∧
    tableLookup (cleanup stLive "c1" 9).heartbeats "c1" = some false := by
  exact ⟨rfl, rfl⟩

/-- Claim C5 as amended: after `cleanup(id)` the persisted record with
that id (if any) has `open = false` and `alive = false` and the socket
handle is gone from the local table; when a record existed the
heartbeat timer is stopped, but its table entry is retained (set to a
stopped timer), and when no record existed the heartbeat table —
including a possibly still-running timer — is untouched. -/
theorem cleanup_effects (st : ServerState) (connectionId : String)
    (now : Int) :
    tableLookup (cleanup st connectionId now).sockets connectionId =
      none ∧
    (∀ r, findOneById (cleanup st connectionId now).records connectionId =
        some r → r.«open» = false ∧ r.alive = some false) ∧
    ((findOneById st.records connectionId).isSome = true →
      (cleanup st connectionId now).heartbeats.map (fun p => p.1) =
        st.heartbeats.map (fun p => p.1) ∧
      tableLookup (cleanup st connectionId now).heartbeats connectionId =
        (tableLookup st.heartbeats connectionId).map (fun _ => false)) ∧
    ((findOneById st.records connectionId).isSome = false →
      (cleanup st connectionId now).heartbeats = st.heartbeats) := by
  cases hfind : findOneById st.records connectionId with
  | none =>
      refine ⟨?_, ?_, ?_, ?_⟩
      · simp only [cleanup, hfind]
        exact tableLookup_tableDelete st.sockets connectionId
      · intro r hr
        simp only [cleanup, hfind] at hr
        exact Option.noConfusion hr
      · intro hs
        simp at hs
      · intro _
        simp only [cleanup, hfind]
  | some record =>
      have hfind2 : List.find? (fun r => r.id == connectionId) st.records =
          some record := hfind
      have hid := List.find?_some hfind2
      refine ⟨?_, ?_, ?_, ?_⟩
      · simp only [cleanup, hfind]
        cases tableLookup st.heartbeats connectionId <;>
          exact tableLookup_tableDelete st.sockets connectionId
      · intro r hr
        simp only [cleanup, hfind] at hr
        have hrepl := findOneById_replaceOneById st.records connectionId
          { record with
              alive := some false
              «open» := false
              disconnected :=
                if (match tableLookup st.sockets connectionId with
                    | some w => w.readyState == 1
                    | none => false) = true then some now
                else record.disconnected }
          record hid hfind
        have h2 := Option.some.inj (hrepl.symm.trans hr)
        subst h2
        exact ⟨rfl, rfl⟩
      · intro _
        simp only [cleanup, hfind]
        cases hlh : tableLookup st.heartbeats connectionId with
        | none => simp [hlh]
        | some b =>
            simp only [hlh]
            exact ⟨keys_tableStopTimer st.heartbeats connectionId,
              by rw [tableLookup_tableStopTimer, hlh]⟩
      · intro hs
        simp at hs

/-- Witness for C5: cleaning up the established connection `c1`
removes the socket handle, leaves a record with `open = false` and
`alive = false`, and preserves the heartbeat key list. -/
theorem cleanup_effects_witness :
    tableLookup (cleanup stLive "c1" 9).sockets "c1" = none ∧
    (recCleaned.«open» = false ∧ recCleaned.alive = some false) ∧
    (cleanup stLive "c1" 9).heartbeats.map (fun p => p.1) =
      stLive.heartbeats.map (fun p => p.1) :=
  ⟨(cleanup_effects stLive "c1" 9).1,
   (cleanup_effects stLive "c1" 9).2.1 recCleaned (by rfl),
   ((cleanup_effects stLive "c1" 9).2.2.1 (by rfl)).1⟩

/-- Counterexample for claim C6: a WebSocket upgrade whose token
verifies with subject `ghost`, for which no record exists, does *not*
close the socket: `connectionRecords.findOne` yields `null`, the next
statement `record.alive = true` throws a `TypeError` that escapes the
handler, and the third component (whether `ws.close()` was called) is
`false`. -/
theorem upgrade_missing_record_throws :
    ep_wsConnect_entry envA stLive { success := true, subject := "ghost" }
      { readyState := 1 } "203.0.113.9" 2000 =
      (.nullRecordTypeError, stLive, false) := by
  rfl

/-- Claim C6 as amended: when the connection token verifies but no
record carries the token's subject as id, the handler throws an
uncaught `TypeError` (reading a property of `null`); the socket is
*not* closed and no state is mutated. -/
theorem upgrade_missing_record_behavior (env : ServerEnv)
    (st : ServerState) (verified : VerifyResult) (ws : Socket)
    (remoteAddress : String) (now : Int)
    (hv : verified.success = true)
    (hr : findOneById st.records verified.subject = none) :
    ep_wsConnect_entry env st verified ws remoteAddress now =
      (.nullRecordTypeError, st, false) := by
  simp [ep_wsConnect_entry, hv, hr]

/-- Witness for C6: concrete instance on the empty store. -/
theorem upgrade_missing_record_behavior_witness :
    ep_wsConnect_entry envA stEmpty { success := true, subject := "c9" }
      { readyState := 1 } "198.51.100.9" 2000 =
      (.nullRecordTypeError, stEmpty, false) :=
  upgrade_missing_record_behavior envA stEmpty
    { success := true, subject := "c9" } { readyState := 1 }
    "198.51.100.9" 2000 rfl rfl

/-- Counterexample for claim C9: calling `disconnect` while no socket
exists returns early and leaves `alwaysReconnect` set — the claim that
*every* call sets it to `false` fails. -/
theorem client_disconnect_no_socket_keeps_reconnect :
    stNoWs.alwaysReconnect = true ∧
    (clientDisconnect stNoWs "shutdown").state.alwaysReconnect = true := by
  exact ⟨rfl, rfl⟩

/-- Claim C9 as amended: when no socket exists, `disconnect` is a
no-op (in particular `alwaysReconnect` is untouched); when a socket
exists it sets `alwaysReconnect := false`, and when that socket is in
OPEN state it additionally sends the final
`{type:'client.state', state:'stopped.' + reason}` frame, closes the
socket, and synchronously invokes the `disconnect` subscribers in
registration order (each inside `try`/`catch`). -/
theorem client_disconnect_behavior (st : ClientState) (e : String)
    (w : ClientWS) (hw : st.ws = some w) :
    (clientDisconnect st e).state.alwaysReconnect = false ∧
    (w.readyState = 1 →
      (clientDisconnect st e).framesSent =
        [stringify (.obj [("type", .str "client.state"),
          ("state", .str ("stopped." ++ e))])] ∧
      (clientDisconnect st e).socketClosed = true ∧
      (clientDisconnect st e).invoked =
        st.disconnectHandlers.map (fun h => h.1)) ∧
    (∀ st2 : ClientState, st2.ws = none →
      clientDisconnect st2 e =
        { state := st2, framesSent := [], socketClosed := false,
          invoked := [] }) := by
  refine ⟨?_, ?_, ?_⟩
  · simp only [clientDisconnect, hw]
    cases hrs : w.readyState == 1 <;> simp [hrs]
  · intro h1
    simp [clientDisconnect, hw, h1]
  · intro st2 h2
    simp [clientDisconnect, h2]

/-- Witness for C9: on an OPEN socket, `disconnect` clears
`alwaysReconnect` and invokes both subscribers in order. -/
theorem client_disconnect_behavior_witness :
    (clientDisconnect stWithWs "maintenance").state.alwaysReconnect =
      false ∧
    (clientDisconnect stWithWs "maintenance").invoked = [0, 1] := by
  have h := client_disconnect_behavior stWithWs "maintenance"
    { readyState := 1 } rfl
  exact ⟨h.1, (h.2.1 rfl).2.2⟩

/-- Counterexample for claim C3: the frame `{"type": 7}` has a truthy
non-string `type`; the claim says it is logged and dropped without an
exception, but `msg.type.match(...)` throws a `TypeError` that escapes
the listener. -/
theorem dispatch_nonstring_type_throws :
    dispatchMessage providersP0 0 1 2 (some (.obj [("type", .num 7)])) =
      .typeError ∧
    (dispatchMessage providersP0 0 1 2
      (some (.obj [("type", .num 7)]))).isDropped = false := by
  exact ⟨rfl, rfl⟩

/-- Claim C3 as amended: a provider handler is invoked iff the frame
parses as JSON, reading its `type` does not fault, `type` is a truthy
string matching the source regex `^([A-z0-9\-_]+)\.([A-z0-9\-_.]+)$`
(whose `A-z` ranges also admit `[`, `\`, `]`, `^` and the backquote),
the provider object exists and its `messages` table holds the handler;
in that case exactly one handler is invoked with
`(parsedMsg, socket, record, coreEnv)`.  Frames with a falsy `type`, a
non-matching string `type`, an unknown provider, or an unknown message
are logged and dropped; but a `null` frame, a truthy non-string
`type`, or a provider without a `messages` table raises an uncaught
`TypeError` instead. -/
theorem dispatch_characterization (providers : Providers)
    (socketRef recordRef envRef : Nat) (parsed : Option JSValue) :
    ((dispatchMessage providers socketRef recordRef envRef
        parsed).isHandled = amendedDispatchOK providers parsed) ∧
    ((dispatchMessage providers socketRef recordRef envRef
        parsed).isUncaughtError = amendedDispatchFault providers parsed) ∧
    ((dispatchMessage providers socketRef recordRef envRef
        parsed).isDropped =
      (!amendedDispatchOK providers parsed &&
        !amendedDispatchFault providers parsed)) ∧
    (∀ pv ms thr m s r e,
      dispatchMessage providers socketRef recordRef envRef parsed =
        .handled pv ms thr m s r e →
      parsed = some m ∧ s = socketRef ∧ r = recordRef ∧ e = envRef) := by
  cases parsed with
  | none =>
      simp [dispatchMessage, amendedDispatchOK, amendedDispatchFault,
        DispatchOutcome.isHandled, DispatchOutcome.isDropped,
        DispatchOutcome.isUncaughtError]
  | some msg =>
      cases hrf : readField msg "type" with
      | typeErr =>
          simp [dispatchMessage, amendedDispatchOK, amendedDispatchFault,
            hrf, DispatchOutcome.isHandled, DispatchOutcome.isDropped,
            DispatchOutcome.isUncaughtError]
      | val t =>
          cases htr : jsTruthyOpt t with
          | false =>
              simp [dispatchMessage, amendedDispatchOK,
                amendedDispatchFault, hrf, htr,
                DispatchOutcome.isHandled, DispatchOutcome.isDropped,
                DispatchOutcome.isUncaughtError]
          | true =>
              cases t with
              | none => simp [jsTruthyOpt] at htr
              | some v =>
                  cases v with
                  | str s =>
                      cases hm : jsTypeMatch s with
                      | none =>
                          simp [dispatchMessage, amendedDispatchOK,
                            amendedDispatchFault, hrf, htr, hm,
                            DispatchOutcome.isHandled,
                            DispatchOutcome.isDropped,
                            DispatchOutcome.isUncaughtError]
                      | some pm =>
                          rcases pm with ⟨pv, ms⟩
                          cases hp : tableLookup providers pv with
                          | none =>
                              simp [dispatchMessage, amendedDispatchOK,
                                amendedDispatchFault, hrf, htr, hm, hp,
                                DispatchOutcome.isHandled,
                                DispatchOutcome.isDropped,
                                DispatchOutcome.isUncaughtError]
                          | some p =>
                              cases hmsgs : p.messages with
                              | none =>
                                  simp [dispatchMessage,
                                    amendedDispatchOK,
                                    amendedDispatchFault, hrf, htr, hm,
                                    hp, hmsgs,
                                    DispatchOutcome.isHandled,
                                    DispatchOutcome.isDropped,
                                    DispatchOutcome.isUncaughtError]
                              | some tbl =>
                                  cases hh : tableLookup tbl ms with
                                  | none =>
                                      simp [dispatchMessage,
                                        amendedDispatchOK,
                                        amendedDispatchFault, hrf, htr,
                                        hm, hp, hmsgs, hh,
                                        DispatchOutcome.isHandled,
                                        DispatchOutcome.isDropped,
                                        DispatchOutcome.isUncaughtError]
                                  | some throws =>
                                      simp [dispatchMessage,
                                        amendedDispatchOK,
                                        amendedDispatchFault, hrf, htr,
                                        hm, hp, hmsgs, hh,
                                        DispatchOutcome.isHandled,
                                        DispatchOutcome.isDropped,
                                        DispatchOutcome.isUncaughtError]
                                      intro pv1 ms1
                                      exact
                                        ⟨fun m s r e _ _ _ h1 h2 h3 h4 =>
                                          ⟨h1, h2.symm, h3.symm, h4.symm⟩,
                                         fun m s r e _ _ _ h1 h2 h3 h4 =>
                                          ⟨h1, h2.symm, h3.symm, h4.symm⟩⟩
                  | num n =>
                      simp [dispatchMessage, amendedDispatchOK,
                        amendedDispatchFault, hrf, htr,
                        DispatchOutcome.isHandled,
                        DispatchOutcome.isDropped,
                        DispatchOutcome.isUncaughtError]
                  | bool b =>
                      simp [dispatchMessage, amendedDispatchOK,
                        amendedDispatchFault, hrf, htr,
                        DispatchOutcome.isHandled,
                        DispatchOutcome.isDropped,
                        DispatchOutcome.isUncaughtError]
                  | null => simp [jsTruthyOpt, jsTruthy] at htr
                  | obj fs =>
                      simp [dispatchMessage, amendedDispatchOK,
                        amendedDispatchFault, hrf, htr,
                        DispatchOutcome.isHandled,
                        DispatchOutcome.isDropped,
                        DispatchOutcome.isUncaughtError]

/-- Witness for C3: the frame `{"type":"client.state"}` is dispatched
to the `client` provider's `state` handler with the parsed message and
the listener's socket, record and environment references as
arguments. -/
theorem dispatch_characterization_witness :
    (dispatchMessage providersP0 0 1 2 (some msgValid)).isHandled =
      true ∧
    (some msgValid = some msgValid ∧ (0 : Nat) = 0 ∧ (1 : Nat) = 1 ∧
      (2 : Nat) = 2) := by
  have h := dispatch_characterization providersP0 0 1 2 (some msgValid)
  refine ⟨?_, h.2.2.2 "client" "state" false msgValid 0 1 2 (by rfl)⟩
  rw [h.1]
  rfl
